import Mathlib

/-!
Verification of the `personal-finance-app` backend (`server.js`), a small
Express server that authenticates users with JWT bearer tokens, stores user
records in MongoDB, and proxies three Plaid API calls.  The handlers are
embedded as pure Lean functions: the Mongo collection becomes a `List User`,
`axios` calls become a function parameter returning an `AxiosResult`, and
`jwt.verify` inside the middleware becomes a function parameter
`String → Option Claims`.
-/

namespace PersonalFinance

/-- JSON values, used for response bodies (`res.send` of a string is modelled
as `JVal.str`, `res.json` of an object as `JVal.obj`, of an array as
`JVal.arr`). -/
inductive JVal where
  | str : String → JVal
  | num : Int → JVal
  | arr : List JVal → JVal
  | obj : List (String × JVal) → JVal
deriving Inhabited

/-- An HTTP response: status code and body. -/
structure Resp where
  status : Nat
  body : JVal
deriving Inhabited

/-- The identity claims signed into a JWT: `jwt.sign({ email: user.email }, JWT_SECRET)`
(server.js line 82). -/
structure Claims where
  email : String
deriving DecidableEq, Inhabited

/-- A Mongo `User` document: `{ firstName, lastName, email, password, accessToken }`.
`password` holds the bcrypt hash; `accessToken` is absent until a Plaid
token exchange stores it. -/
structure User where
  firstName : String
  lastName : String
  email : String
  password : String
  accessToken : Option String
deriving DecidableEq, Inhabited

/-- Mongo `User.findOne({ email })`: the first record in the store whose email
matches. -/
def findUser (store : List User) (email : String) : Option User :=
  store.find? (fun u => u.email == email)

/-- Accumulator loop for JavaScript `s.split(' ')`: splits at every single
space character, keeping empty segments. -/
def splitSpAux : List Char → List Char → List String
  | [], acc => [String.mk acc.reverse]
  | c :: rest, acc =>
    if c = ' ' then String.mk acc.reverse :: splitSpAux rest []
    else splitSpAux rest (c :: acc)

/-- The JavaScript `s.split(' ')` operation (server.js line 47 does `token.split(' ')[1]`). -/
def jsSplitSpace (s : String) : List String :=
  splitSpAux s.data []

/-- Outcome of the `authenticateJWT` middleware: either the request is
rejected with a status and a text body, or the decoded claims are attached
to the request (`req.user = decoded`) and the inner handler runs. -/
inductive AuthResult where
  | reject : Nat → String → AuthResult
  | proceed : Claims → AuthResult
deriving DecidableEq

/-- Middleware `authenticateJWT` (server.js lines 41–53).  `verify` abstracts
`jwt.verify (·) JWT_SECRET`, returning `none` when verification throws.
A missing header, like the empty string, is falsy in JavaScript, so
`if (!token)` rejects both with 401.  Otherwise the code verifies
`token.split(' ')[1]`; when that index is out of range `jwt.verify`
receives `undefined` and throws, landing in the 400 branch. -/
def authenticateJWT (verify : String → Option Claims) (header : Option String) :
    AuthResult :=
  match header with
  | none => .reject 401 "Access denied. No token provided."
  | some token =>
    if token = "" then .reject 401 "Access denied. No token provided."
    else
      match (jsSplitSpace token).get? 1 with
      | none => .reject 400 "Invalid token."
      | some seg =>
        match verify seg with
        | none => .reject 400 "Invalid token."
        | some decoded => .proceed decoded

/-- A protected route: the middleware runs first; only if it proceeds does
the route handler run on the attached claims. -/
def protectedRoute (verify : String → Option Claims) (handler : Claims → Resp)
    (header : Option String) : Resp :=
  match authenticateJWT verify header with
  | .reject s b => ⟨s, .str b⟩
  | .proceed c => handler c

/-- Handler of `POST /signup` (server.js lines 56–70).  `hash` abstracts
`bcrypt.hash (·) 10` for one draw of its internal salt.  Returns the
response together with the store after the request. -/
def signup (store : List User) (firstName lastName email password : String)
    (hash : String → String) : Resp × List User :=
  match findUser store email with
  | some _ => (⟨400, .str "User already exists."⟩, store)
  | none =>
    (⟨200, .str "User registered successfully."⟩,
      store ++ [⟨firstName, lastName, email, hash password, none⟩])

/-- Handler of `POST /login` (server.js lines 73–88).  `compare` abstracts
`bcrypt.compare`, `sign` abstracts `jwt.sign ({email : ·}) JWT_SECRET`
producing the token string sent back. -/
def login (store : List User) (email password : String)
    (compare : String → String → Bool) (sign : String → String) : Resp :=
  match findUser store email with
  | none => ⟨400, .str "Invalid email or password."⟩
  | some user =>
    if compare password user.password then
      ⟨200, .obj [("token", .str (sign user.email))]⟩
    else ⟨400, .str "Invalid email or password."⟩

/-- Handler of `GET /user` (server.js lines 91–101): the handler run after
`authenticateJWT` has attached `claims`. -/
def getUser (store : List User) (claims : Claims) : Resp :=
  match findUser store claims.email with
  | none => ⟨400, .str "User not found."⟩
  | some user =>
    ⟨200, .obj [("firstName", .str user.firstName),
                ("lastName", .str user.lastName),
                ("email", .str user.email)]⟩

/-- The keys of a JSON object body (empty for non-objects). -/
def JVal.objKeys : JVal → List String
  | .obj fields => fields.map Prod.fst
  | _ => []

/-- Result of an `axios.post` call as the handlers observe it: success with
`response.data`, an HTTP error where `error.response` carries a status and
`error.response.data`, or a transport error with only `error.message`. -/
inductive AxiosResult (α : Type) where
  | ok : α → AxiosResult α
  | httpErr : Nat → JVal → AxiosResult α
  | netErr : String → AxiosResult α

/-- Request body of `POST ${PLAID_ENV}/link/token/create` (server.js
lines 107–117); the constant fields (client name, products, country codes,
language) are fixed by the code and omitted. -/
structure LinkReq where
  client_id : String
  secret : String
  client_user_id : String

/-- Handler of `POST /create_link_token` (server.js lines 104–123). -/
def createLinkToken (claims : Claims) (clientId sec : String)
    (api : LinkReq → AxiosResult JVal) : Resp :=
  match api ⟨clientId, sec, claims.email⟩ with
  | .ok data => ⟨200, data⟩
  | .httpErr _ body => ⟨500, body⟩
  | .netErr _ => ⟨500, .str "Internal Server Error"⟩

/-- Request body of `POST ${PLAID_ENV}/item/public_token/exchange`
(server.js lines 128–132). -/
structure ExchangeReq where
  client_id : String
  secret : String
  public_token : String

/-- Shape of `response.data` of a successful Plaid exchange call: the code reads
`response.data.access_token` (server.js line 136). -/
structure ExchangeData where
  access_token : String

/-- Mongo `User.findOneAndUpdate({email}, {accessToken}, {new: true})`
(server.js lines 134–138): updates the first record matching the email,
returning the updated document (or `none` when no record matches, in which
case the store is untouched). -/
def findOneAndUpdateToken : List User → String → String → Option User × List User
  | [], _, _ => (none, [])
  | u :: rest, email, tok =>
    if u.email == email then
      let u' := { u with accessToken := some tok }
      (some u', u' :: rest)
    else
      let r := findOneAndUpdateToken rest email tok
      (r.1, u :: r.2)

/-- Handler of `POST /exchange_public_token` (server.js lines 126–149).  On an axios
failure the `catch` block runs before any store write. -/
def exchangePublicToken (store : List User) (claims : Claims)
    (clientId sec publicToken : String)
    (api : ExchangeReq → AxiosResult ExchangeData) : Resp × List User :=
  match api ⟨clientId, sec, publicToken⟩ with
  | .ok data =>
    let r := findOneAndUpdateToken store claims.email data.access_token
    match r.1 with
    | none => (⟨400, .str "User not found."⟩, r.2)
    | some _ => (⟨200, .obj [("message", .str "Token exchange successful")]⟩, r.2)
  | .httpErr _ body => (⟨500, body⟩, store)
  | .netErr _ => (⟨500, .str "Internal Server Error"⟩, store)

/-- Request body of `POST ${PLAID_ENV}/transactions/get` (server.js
lines 157–163). -/
structure TxReq where
  client_id : String
  secret : String
  access_token : String
  start_date : String
  end_date : String

/-- Shape of `response.data` of a successful Plaid transactions call: the code reads
`response.data.transactions` (server.js line 164). -/
structure TxData where
  transactions : List JVal

/-- Handler of `GET /fetch_transactions` (server.js lines 152–169).  `today` is
`new Date().toISOString().split('T')[0]`.  The guard
`!user || !user.accessToken` treats a missing record, a missing token and
an empty-string token (falsy in JavaScript) alike. -/
def fetchTransactions (store : List User) (claims : Claims)
    (clientId sec today : String) (api : TxReq → AxiosResult TxData) : Resp :=
  match findUser store claims.email with
  | none => ⟨400, .str "No access token found."⟩
  | some user =>
    match user.accessToken with
    | none => ⟨400, .str "No access token found."⟩
    | some tok =>
      if tok = "" then ⟨400, .str "No access token found."⟩
      else
        match api ⟨clientId, sec, tok, "2022-01-01", today⟩ with
        | .ok data => ⟨200, .arr data.transactions⟩
        | .httpErr _ body => ⟨500, body⟩
        | .netErr _ => ⟨500, .str "Internal Server Error"⟩

/-- A signed JWT, modelled structurally: the signature binds the payload to
the signing key. -/
structure JwtToken where
  claims : Claims
  key : String
deriving DecidableEq

/-- Signing, `jwt.sign(claims, key)` (server.js line 82). -/
def jwtSign (claims : Claims) (key : String) : JwtToken :=
  ⟨claims, key⟩

/-- Verification, `jwt.verify(token, key)` (server.js line 47): succeeds with the decoded
claims exactly when the token was signed with the same key. -/
def jwtVerify (token : JwtToken) (key : String) : Option Claims :=
  if token.key = key then some token.claims else none

/-! ## Theorems -/

theorem mk_data (s : String) : String.mk s.data = s := by
  cases s
  rfl

theorem splitSpAux_of_not_mem (xs acc : List Char) (h : ' ' ∉ xs) :
    splitSpAux xs acc = [String.mk (acc.reverse ++ xs)] := by
  induction xs generalizing acc with
  | nil => simp [splitSpAux]
  | cons c rest ih =>
    have hc : ¬ c = ' ' := fun hc => h (hc ▸ List.mem_cons_self c rest)
    have hr : ' ' ∉ rest := fun hm => h (List.mem_cons_of_mem _ hm)
    simp [splitSpAux, hc, ih _ hr]

theorem splitSpAux_append_space (xs ys acc : List Char) (h : ' ' ∉ xs) :
    splitSpAux (xs ++ ' ' :: ys) acc
      = String.mk (acc.reverse ++ xs) :: splitSpAux ys [] := by
  induction xs generalizing acc with
  | nil => simp [splitSpAux]
  | cons c rest ih =>
    have hc : ¬ c = ' ' := fun hc => h (hc ▸ List.mem_cons_self c rest)
    have hr : ' ' ∉ rest := fun hm => h (List.mem_cons_of_mem _ hm)
    simp [splitSpAux, hc, ih _ hr]

theorem jsSplitSpace_sep (p t : String) (hp : ' ' ∉ p.data) (ht : ' ' ∉ t.data) :
    jsSplitSpace (p ++ " " ++ t) = [p, t] := by
  unfold jsSplitSpace
  have hdata : (p ++ " " ++ t).data = p.data ++ ' ' :: t.data := by
    simp [String.data_append]
  rw [hdata, splitSpAux_append_space _ _ _ hp, splitSpAux_of_not_mem _ _ ht]
  simp [mk_data]

theorem jsSplitSpace_no_space (t : String) (ht : ' ' ∉ t.data) :
    jsSplitSpace t = [t] := by
  unfold jsSplitSpace
  rw [splitSpAux_of_not_mem _ _ ht]
  simp [mk_data]

/-- C1: on a protected route, a request with no Authorization header is
rejected 401 with no further processing (the result does not depend on the
handler); a request whose token fails verification gets status 400; and a
request whose token verifies has the decoded claims attached and the
handler invoked on them. -/
theorem auth_middleware_gate (verify : String → Option Claims)
    (handler : Claims → Resp) (h t : String) (c : Claims) :
    protectedRoute verify handler none
      = ⟨401, .str "Access denied. No token provided."⟩
    ∧ (h ≠ "" → (jsSplitSpace h).get? 1 = some t → verify t = none →
        protectedRoute verify handler (some h) = ⟨400, .str "Invalid token."⟩)
    ∧ (h ≠ "" → (jsSplitSpace h).get? 1 = some t → verify t = some c →
        authenticateJWT verify (some h) = .proceed c
        ∧ protectedRoute verify handler (some h) = handler c) := by
  refine ⟨rfl, ?_, ?_⟩
  · intro hne hseg hver
    rw [List.get?_eq_getElem?] at hseg
    simp [protectedRoute, authenticateJWT, hne, hseg, hver]
  · intro hne hseg hver
    rw [List.get?_eq_getElem?] at hseg
    constructor
    · simp [authenticateJWT, hne, hseg, hver]
    · simp [protectedRoute, authenticateJWT, hne, hseg, hver]

/-- Witness for C1 at a concrete verifier, handler and header. -/
theorem auth_middleware_gate_witness :
    protectedRoute (fun s => if s = "tok" then some ⟨"a@x.com"⟩ else none)
        (fun c => ⟨200, .str c.email⟩) none
      = ⟨401, .str "Access denied. No token provided."⟩
    ∧ protectedRoute (fun s => if s = "tok" then some ⟨"a@x.com"⟩ else none)
        (fun c => ⟨200, .str c.email⟩) (some "Bearer bad")
      = ⟨400, .str "Invalid token."⟩
    ∧ protectedRoute (fun s => if s = "tok" then some ⟨"a@x.com"⟩ else none)
        (fun c => ⟨200, .str c.email⟩) (some "Bearer tok")
      = ⟨200, .str "a@x.com"⟩ := by
  have h1 := auth_middleware_gate (fun s => if s = "tok" then some ⟨"a@x.com"⟩ else none)
    (fun c => ⟨200, .str c.email⟩) "Bearer bad" "bad" ⟨"a@x.com"⟩
  have h2 := auth_middleware_gate (fun s => if s = "tok" then some ⟨"a@x.com"⟩ else none)
    (fun c => ⟨200, .str c.email⟩) "Bearer tok" "tok" ⟨"a@x.com"⟩
  refine ⟨h1.1, h1.2.1 (by decide) (by decide) (by decide), ?_⟩
  exact (h2.2.2 (by decide) (by decide) (by decide)).2

/-- C2: a login for a nonexistent email and a login for an existing email
with a password failing verification return the very same response, namely
status 400 with body "Invalid email or password.". -/
theorem login_indistinguishable_failures (store : List User)
    (e1 p1 e2 p2 : String) (compare : String → String → Bool)
    (sign : String → String) (u : User)
    (h1 : findUser store e1 = none)
    (h2 : findUser store e2 = some u)
    (h3 : compare p2 u.password = false) :
    login store e1 p1 compare sign = login store e2 p2 compare sign
    ∧ login store e1 p1 compare sign
        = ⟨400, .str "Invalid email or password."⟩ := by
  constructor <;> simp [login, h1, h2, h3]

/-- Witness for C2: a one-record store, a wrong email and a wrong password. -/
theorem login_indistinguishable_failures_witness :
    login [⟨"Ann", "Lee", "a@x.com", "hashed", none⟩] "b@x.com" "pw"
        (fun _ _ => false) (fun _ => "tok")
      = login [⟨"Ann", "Lee", "a@x.com", "hashed", none⟩] "a@x.com" "pw"
        (fun _ _ => false) (fun _ => "tok")
    ∧ login [⟨"Ann", "Lee", "a@x.com", "hashed", none⟩] "b@x.com" "pw"
        (fun _ _ => false) (fun _ => "tok")
      = ⟨400, .str "Invalid email or password."⟩ :=
  login_indistinguishable_failures [⟨"Ann", "Lee", "a@x.com", "hashed", none⟩]
    "b@x.com" "pw" "a@x.com" "pw" (fun _ _ => false) (fun _ => "tok")
    ⟨"Ann", "Lee", "a@x.com", "hashed", none⟩ rfl rfl rfl

/-- C3: when a record with the given email already exists, a second signup
returns 400 "User already exists." and leaves the store — in particular the
existing record for that email — unchanged. -/
theorem signup_duplicate_email (store : List User)
    (firstName lastName email password : String) (hash : String → String)
    (u : User) (h : findUser store email = some u) :
    signup store firstName lastName email password hash
      = (⟨400, .str "User already exists."⟩, store)
    ∧ findUser (signup store firstName lastName email password hash).2 email
        = some u := by
  constructor <;> simp [signup, h]

/-- Witness for C3: re-registering an existing email. -/
theorem signup_duplicate_email_witness :
    signup [⟨"Ann", "Lee", "a@x.com", "h1", none⟩] "Bob" "Ray" "a@x.com" "p2"
        (fun s => s)
      = (⟨400, .str "User already exists."⟩,
         [⟨"Ann", "Lee", "a@x.com", "h1", none⟩])
    ∧ findUser (signup [⟨"Ann", "Lee", "a@x.com", "h1", none⟩] "Bob" "Ray"
        "a@x.com" "p2" (fun s => s)).2 "a@x.com"
      = some ⟨"Ann", "Lee", "a@x.com", "h1", none⟩ :=
  signup_duplicate_email [⟨"Ann", "Lee", "a@x.com", "h1", none⟩] "Bob" "Ray"
    "a@x.com" "p2" (fun s => s) ⟨"Ann", "Lee", "a@x.com", "h1", none⟩ rfl

/-- C4: the profile endpoint answers 400 "User not found." when no record
matches the identity's email, and otherwise returns exactly the firstName,
lastName and email fields of the record — the body has no password or
accessToken key. -/
theorem getUser_profile (store : List User) (claims : Claims) (u : User) :
    (findUser store claims.email = none →
      getUser store claims = ⟨400, .str "User not found."⟩)
    ∧ (findUser store claims.email = some u →
        getUser store claims
          = ⟨200, .obj [("firstName", .str u.firstName),
                        ("lastName", .str u.lastName),
                        ("email", .str u.email)]⟩
        ∧ (getUser store claims).body.objKeys
            = ["firstName", "lastName", "email"]
        ∧ "password" ∉ (getUser store claims).body.objKeys
        ∧ "accessToken" ∉ (getUser store claims).body.objKeys) := by
  constructor
  · intro h
    simp [getUser, h]
  · intro h
    refine ⟨by simp [getUser, h], by simp [getUser, h, JVal.objKeys], ?_, ?_⟩
    · simp [getUser, h, JVal.objKeys]
    · simp [getUser, h, JVal.objKeys]

/-- Witness for C4 at a concrete store and identity. -/
theorem getUser_profile_witness :
    getUser [⟨"Ann", "Lee", "a@x.com", "hashed", some "tok"⟩] ⟨"b@x.com"⟩
      = ⟨400, .str "User not found."⟩
    ∧ getUser [⟨"Ann", "Lee", "a@x.com", "hashed", some "tok"⟩] ⟨"a@x.com"⟩
      = ⟨200, .obj [("firstName", .str "Ann"), ("lastName", .str "Lee"),
                    ("email", .str "a@x.com")]⟩ :=
  ⟨(getUser_profile [⟨"Ann", "Lee", "a@x.com", "hashed", some "tok"⟩]
      ⟨"b@x.com"⟩ ⟨"Ann", "Lee", "a@x.com", "hashed", some "tok"⟩).1 rfl,
   ((getUser_profile [⟨"Ann", "Lee", "a@x.com", "hashed", some "tok"⟩]
      ⟨"a@x.com"⟩ ⟨"Ann", "Lee", "a@x.com", "hashed", some "tok"⟩).2 rfl).1⟩

/-- C8: a token signed over some identity claims with the process key
verifies under the same key and yields exactly the same claims (same
email); under a different key it does not verify at all. -/
theorem jwt_sign_verify_round_trip (claims : Claims) (key : String) :
    jwtVerify (jwtSign claims key) key = some claims
    ∧ (jwtVerify (jwtSign claims key) key).map Claims.email
        = some claims.email := by
  simp [jwtVerify, jwtSign]

/-- C9: for a non-empty Authorization header the middleware verifies only
the second space-separated segment and never checks the scheme word: any
scheme prefix followed by a verifying token is accepted, while a bare token
with no space is rejected with 400. -/
theorem auth_middleware_ignores_scheme (verify : String → Option Claims)
    (p t : String) (c : Claims)
    (hp : ' ' ∉ p.data) (ht : ' ' ∉ t.data) (hv : verify t = some c) :
    authenticateJWT verify (some (p ++ " " ++ t)) = .proceed c
    ∧ (t ≠ "" →
        authenticateJWT verify (some t) = .reject 400 "Invalid token.") := by
  constructor
  · have hne : p ++ " " ++ t ≠ "" := by
      intro h
      have : (p ++ " " ++ t).data = ("" : String).data := by rw [h]
      simp [String.data_append] at this
    simp [authenticateJWT, hne, jsSplitSpace_sep p t hp ht, hv]
  · intro htne
    simp [authenticateJWT, htne, jsSplitSpace_no_space t ht]

/-- Witness for C9: the headers "Basic tok" and "X tok" are authenticated just like a
Bearer header, while a bare "tok" is rejected 400. -/
theorem auth_middleware_ignores_scheme_witness :
    authenticateJWT (fun s => if s = "tok" then some ⟨"a@x.com"⟩ else none)
        (some "Basic tok") = .proceed ⟨"a@x.com"⟩
    ∧ authenticateJWT (fun s => if s = "tok" then some ⟨"a@x.com"⟩ else none)
        (some "X tok") = .proceed ⟨"a@x.com"⟩
    ∧ authenticateJWT (fun s => if s = "tok" then some ⟨"a@x.com"⟩ else none)
        (some "tok") = .reject 400 "Invalid token." := by
  have h1 := auth_middleware_ignores_scheme
    (fun s => if s = "tok" then some ⟨"a@x.com"⟩ else none) "Basic" "tok"
    ⟨"a@x.com"⟩ (by decide) (by decide) (by decide)
  have h2 := auth_middleware_ignores_scheme
    (fun s => if s = "tok" then some ⟨"a@x.com"⟩ else none) "X" "tok"
    ⟨"a@x.com"⟩ (by decide) (by decide) (by decide)
  exact ⟨h1.1, h2.1, h1.2 (by decide)⟩

/-- C5: an authenticated fetchTransactions fails 400 "No access token
found." when the record has no persisted access token (the Unlinked
state); when a (non-empty, hence JavaScript-truthy) access token is
present the handler calls the transactions endpoint with start date
"2022-01-01" and the current date as end date, and returns the
transactions array extracted from the response. -/
theorem fetchTransactions_spec (store : List User) (claims : Claims)
    (clientId sec today : String) (api : TxReq → AxiosResult TxData)
    (u : User) (hu : findUser store claims.email = some u) :
    (u.accessToken = none →
      fetchTransactions store claims clientId sec today api
        = ⟨400, .str "No access token found."⟩)
    ∧ (∀ tok data, u.accessToken = some tok → tok ≠ "" →
        api ⟨clientId, sec, tok, "2022-01-01", today⟩ = .ok data →
        fetchTransactions store claims clientId sec today api
          = ⟨200, .arr data.transactions⟩) := by
  constructor
  · intro h
    simp [fetchTransactions, hu, h]
  · intro tok data h hne happ
    simp [fetchTransactions, hu, h, hne, happ]

/-- Witness for C5: an unlinked record fails, a linked one returns the
mocked transactions. -/
theorem fetchTransactions_spec_witness :
    fetchTransactions [⟨"Ann", "Lee", "a@x.com", "hashed", none⟩] ⟨"a@x.com"⟩
        "cid" "sec" "2026-10-12" (fun _ => .ok ⟨[.str "t1"]⟩)
      = ⟨400, .str "No access token found."⟩
    ∧ fetchTransactions [⟨"Ann", "Lee", "a@x.com", "hashed", some "acc"⟩]
        ⟨"a@x.com"⟩ "cid" "sec" "2026-10-12" (fun _ => .ok ⟨[.str "t1"]⟩)
      = ⟨200, .arr [.str "t1"]⟩ :=
  ⟨(fetchTransactions_spec [⟨"Ann", "Lee", "a@x.com", "hashed", none⟩]
      ⟨"a@x.com"⟩ "cid" "sec" "2026-10-12" (fun _ => .ok ⟨[.str "t1"]⟩)
      ⟨"Ann", "Lee", "a@x.com", "hashed", none⟩ rfl).1 rfl,
   (fetchTransactions_spec [⟨"Ann", "Lee", "a@x.com", "hashed", some "acc"⟩]
      ⟨"a@x.com"⟩ "cid" "sec" "2026-10-12" (fun _ => .ok ⟨[.str "t1"]⟩)
      ⟨"Ann", "Lee", "a@x.com", "hashed", some "acc"⟩ rfl).2 "acc" ⟨[.str "t1"]⟩
      rfl (by decide) rfl⟩

theorem findOneAndUpdateToken_of_none (store : List User) (email tok : String)
    (h : findUser store email = none) :
    findOneAndUpdateToken store email tok = (none, store) := by
  induction store with
  | nil => rfl
  | cons u rest ih =>
    rw [findUser, List.find?] at h
    cases hc : u.email == email with
    | true => rw [hc] at h; exact absurd h (by simp)
    | false =>
      rw [hc] at h
      simp [findOneAndUpdateToken, hc, ih h]

theorem findOneAndUpdateToken_of_some (store : List User) (email tok : String)
    (u : User) (h : findUser store email = some u) :
    (findOneAndUpdateToken store email tok).1
        = some { u with accessToken := some tok }
    ∧ findUser (findOneAndUpdateToken store email tok).2 email
        = some { u with accessToken := some tok } := by
  induction store with
  | nil => exact absurd h (by simp [findUser])
  | cons v rest ih =>
    rw [findUser, List.find?] at h
    cases hc : v.email == email with
    | true =>
      rw [hc] at h
      cases h
      constructor
      · simp [findOneAndUpdateToken, hc]
      · simp [findOneAndUpdateToken, hc, findUser, List.find?]
    | false =>
      rw [hc] at h
      have ihr := ih h
      constructor
      · simpa [findOneAndUpdateToken, hc] using ihr.1
      · simpa [findOneAndUpdateToken, hc, findUser, List.find?] using ihr.2

/-- C6: when the Plaid exchange call succeeds, the returned access token is
persisted into the store record keyed by the identity's email; with no
matching record the handler answers 400 "User not found."; on success the
response is a fixed acknowledgment that does not carry the access token. -/
theorem exchangePublicToken_spec (store : List User) (claims : Claims)
    (clientId sec pubTok : String) (api : ExchangeReq → AxiosResult ExchangeData)
    (d : ExchangeData) (happ : api ⟨clientId, sec, pubTok⟩ = .ok d) :
    (findUser store claims.email = none →
      exchangePublicToken store claims clientId sec pubTok api
        = (⟨400, .str "User not found."⟩, store))
    ∧ (∀ u, findUser store claims.email = some u →
        (exchangePublicToken store claims clientId sec pubTok api).1
          = ⟨200, .obj [("message", .str "Token exchange successful")]⟩
        ∧ findUser (exchangePublicToken store claims clientId sec pubTok api).2
            claims.email
          = some { u with accessToken := some d.access_token }) := by
  constructor
  · intro h
    simp [exchangePublicToken, happ, findOneAndUpdateToken_of_none _ _ _ h]
  · intro u h
    have hup := findOneAndUpdateToken_of_some store claims.email d.access_token u h
    constructor
    · simp [exchangePublicToken, happ, hup.1]
    · have h2 :
          (exchangePublicToken store claims clientId sec pubTok api).2
            = (findOneAndUpdateToken store claims.email d.access_token).2 := by
        simp [exchangePublicToken, happ, hup.1]
      rw [h2]
      exact hup.2

/-- Witness for C6: a successful mocked exchange persists the token; a
store with no matching record fails 400. -/
theorem exchangePublicToken_spec_witness :
    exchangePublicToken [] ⟨"a@x.com"⟩ "cid" "sec" "pub"
        (fun _ => .ok ⟨"acc-42"⟩)
      = (⟨400, .str "User not found."⟩, [])
    ∧ (exchangePublicToken [⟨"Ann", "Lee", "a@x.com", "hashed", none⟩]
        ⟨"a@x.com"⟩ "cid" "sec" "pub" (fun _ => .ok ⟨"acc-42"⟩)).1
      = ⟨200, .obj [("message", .str "Token exchange successful")]⟩
    ∧ findUser (exchangePublicToken [⟨"Ann", "Lee", "a@x.com", "hashed", none⟩]
        ⟨"a@x.com"⟩ "cid" "sec" "pub" (fun _ => .ok ⟨"acc-42"⟩)).2 "a@x.com"
      = some ⟨"Ann", "Lee", "a@x.com", "hashed", some "acc-42"⟩ := by
  have h1 := exchangePublicToken_spec [] ⟨"a@x.com"⟩ "cid" "sec" "pub"
    (fun _ => .ok ⟨"acc-42"⟩) ⟨"acc-42"⟩ rfl
  have h2 := exchangePublicToken_spec [⟨"Ann", "Lee", "a@x.com", "hashed", none⟩]
    ⟨"a@x.com"⟩ "cid" "sec" "pub" (fun _ => .ok ⟨"acc-42"⟩) ⟨"acc-42"⟩ rfl
  have h3 := h2.2 ⟨"Ann", "Lee", "a@x.com", "hashed", none⟩ rfl
  exact ⟨h1.1 rfl, h3.1, h3.2⟩

/-- C7 counterexample: when the external API answers with HTTP status 404,
`createLinkToken` relays the upstream body but answers the client with
status 500, not 404 — the external status is NOT passed through. -/
theorem createLinkToken_status_not_passed_through :
    createLinkToken ⟨"a@x.com"⟩ "cid" "sec"
        (fun _ => .httpErr 404 (.str "not found"))
      = ⟨500, .str "not found"⟩
    ∧ (createLinkToken ⟨"a@x.com"⟩ "cid" "sec"
        (fun _ => .httpErr 404 (.str "not found"))).status ≠ 404 :=
  ⟨rfl, by decide⟩

/-- C7 (amended): a failing createLinkToken call is surfaced as status 500;
the upstream response body is passed through when available, else the
generic body "Internal Server Error" is returned. -/
theorem createLinkToken_error_proxied (claims : Claims) (clientId sec : String)
    (api : LinkReq → AxiosResult JVal) :
    (∀ s b, api ⟨clientId, sec, claims.email⟩ = .httpErr s b →
      createLinkToken claims clientId sec api = ⟨500, b⟩)
    ∧ (∀ m, api ⟨clientId, sec, claims.email⟩ = .netErr m →
      createLinkToken claims clientId sec api
        = ⟨500, .str "Internal Server Error"⟩) := by
  constructor
  · intro s b h
    simp [createLinkToken, h]
  · intro m h
    simp [createLinkToken, h]

/-- Witness for the amended C7, with a mocked upstream error and a mocked
transport failure. -/
theorem createLinkToken_error_proxied_witness :
    createLinkToken ⟨"a@x.com"⟩ "cid" "sec"
        (fun _ => .httpErr 418 (.obj [("error_code", .str "RATE_LIMIT")]))
      = ⟨500, .obj [("error_code", .str "RATE_LIMIT")]⟩
    ∧ createLinkToken ⟨"a@x.com"⟩ "cid" "sec" (fun _ => .netErr "ECONNRESET")
      = ⟨500, .str "Internal Server Error"⟩ :=
  ⟨(createLinkToken_error_proxied ⟨"a@x.com"⟩ "cid" "sec"
      (fun _ => .httpErr 418 (.obj [("error_code", .str "RATE_LIMIT")]))).1
      418 (.obj [("error_code", .str "RATE_LIMIT")]) rfl,
   (createLinkToken_error_proxied ⟨"a@x.com"⟩ "cid" "sec"
      (fun _ => .netErr "ECONNRESET")).2 "ECONNRESET" rfl⟩

/-- The profile fields of a user record: everything except `accessToken`. -/
def sameProfile (u v : User) : Prop :=
  u.firstName = v.firstName ∧ u.lastName = v.lastName
    ∧ u.email = v.email ∧ u.password = v.password

theorem sameProfile_refl (u : User) : sameProfile u u :=
  ⟨rfl, rfl, rfl, rfl⟩

theorem findOneAndUpdateToken_frame (store : List User) (email tok : String) :
    List.Forall₂ sameProfile store (findOneAndUpdateToken store email tok).2 := by
  induction store with
  | nil => simp [findOneAndUpdateToken]
  | cons u rest ih =>
    cases hc : u.email == email with
    | true =>
      have hstep :
          (findOneAndUpdateToken (u :: rest) email tok).2
            = { u with accessToken := some tok } :: rest := by
        simp [findOneAndUpdateToken, hc]
      rw [hstep]
      exact List.Forall₂.cons ⟨rfl, rfl, rfl, rfl⟩
        ((List.forall₂_same).mpr fun x _ => sameProfile_refl x)
    | false =>
      have hstep :
          (findOneAndUpdateToken (u :: rest) email tok).2
            = u :: (findOneAndUpdateToken rest email tok).2 := by
        simp [findOneAndUpdateToken, hc]
      rw [hstep]
      exact List.Forall₂.cons (sameProfile_refl u) ih

/-- C10: exchangePublicToken only ever touches the accessToken field — the
store after a successful exchange has the same length and pointwise the
same firstName, lastName, email and password hash — and when the external
call fails the store is left entirely unchanged. -/
theorem exchangePublicToken_frame (store : List User) (claims : Claims)
    (clientId sec pubTok : String)
    (api : ExchangeReq → AxiosResult ExchangeData) :
    (∀ d, api ⟨clientId, sec, pubTok⟩ = .ok d →
      List.Forall₂ sameProfile store
        (exchangePublicToken store claims clientId sec pubTok api).2
      ∧ (exchangePublicToken store claims clientId sec pubTok api).2.length
          = store.length)
    ∧ (∀ s b, api ⟨clientId, sec, pubTok⟩ = .httpErr s b →
        (exchangePublicToken store claims clientId sec pubTok api).2 = store)
    ∧ (∀ m, api ⟨clientId, sec, pubTok⟩ = .netErr m →
        (exchangePublicToken store claims clientId sec pubTok api).2
          = store) := by
  refine ⟨?_, ?_, ?_⟩
  · intro d happ
    have h2 :
        (exchangePublicToken store claims clientId sec pubTok api).2
          = (findOneAndUpdateToken store claims.email d.access_token).2 := by
      cases hr : (findOneAndUpdateToken store claims.email d.access_token).1
        <;> simp [exchangePublicToken, happ, hr]
    rw [h2]
    have hf := findOneAndUpdateToken_frame store claims.email d.access_token
    exact ⟨hf, hf.length_eq.symm⟩
  · intro s b h
    simp [exchangePublicToken, h]
  · intro m h
    simp [exchangePublicToken, h]

/-- Witness for C10: a two-record store, a successful exchange and a failed
one. -/
theorem exchangePublicToken_frame_witness :
    List.Forall₂ sameProfile
        [⟨"Ann", "Lee", "a@x.com", "h1", none⟩, ⟨"Bob", "Ray", "b@x.com", "h2", none⟩]
        (exchangePublicToken
          [⟨"Ann", "Lee", "a@x.com", "h1", none⟩, ⟨"Bob", "Ray", "b@x.com", "h2", none⟩]
          ⟨"a@x.com"⟩ "cid" "sec" "pub" (fun _ => .ok ⟨"acc"⟩)).2
    ∧ (exchangePublicToken
        [⟨"Ann", "Lee", "a@x.com", "h1", none⟩, ⟨"Bob", "Ray", "b@x.com", "h2", none⟩]
        ⟨"a@x.com"⟩ "cid" "sec" "pub" (fun _ => .ok ⟨"acc"⟩)).2.length = 2
    ∧ (exchangePublicToken
        [⟨"Ann", "Lee", "a@x.com", "h1", none⟩, ⟨"Bob", "Ray", "b@x.com", "h2", none⟩]
        ⟨"a@x.com"⟩ "cid" "sec" "pub" (fun _ => .netErr "ECONNRESET")).2
      = [⟨"Ann", "Lee", "a@x.com", "h1", none⟩, ⟨"Bob", "Ray", "b@x.com", "h2", none⟩] := by
  have h1 := exchangePublicToken_frame
    [⟨"Ann", "Lee", "a@x.com", "h1", none⟩, ⟨"Bob", "Ray", "b@x.com", "h2", none⟩]
    ⟨"a@x.com"⟩ "cid" "sec" "pub" (fun _ => .ok ⟨"acc"⟩)
  have h2 := exchangePublicToken_frame
    [⟨"Ann", "Lee", "a@x.com", "h1", none⟩, ⟨"Bob", "Ray", "b@x.com", "h2", none⟩]
    ⟨"a@x.com"⟩ "cid" "sec" "pub" (fun _ => .netErr "ECONNRESET")
  have hok := h1.1 ⟨"acc"⟩ rfl
  exact ⟨hok.1, hok.2, h2.2.2 "ECONNRESET" rfl⟩

end PersonalFinance
